import Mathlib

/-!
Verification of the BlogWebsite application core (src/main.py): the data
model (users, blog_posts, comments tables), the admin-only authorization
decorator, and the request handlers for posts, comments, registration and
login, shallowly embedded as pure Lean functions over an explicit store.
-/

namespace Blog

/-! ## Credential service

The password functions generate_password_hash and check_password_hash are
imported from werkzeug (src/main.py line 13) and their implementation is
not part of this repository.  Modelled from the spec: hash is a salted
one-way derivation (pbkdf2:sha256, per-call random salt of length 8,
src/main.py line 239); the derived key is modelled as an injective keyed
function of the plaintext, injectivity standing in for the ideal
collision-freeness the spec contract assumes; verify re-derives with the
stored salt and compares.  The salt is threaded explicitly since the model
is pure. -/

structure Credential where
  salt : Nat
  key : List Nat
deriving Repr, DecidableEq

/-- Modelled from the spec: the key derivation at the heart of
generate_password_hash; an abstract injective keyed map stands in for
PBKDF2-SHA256. -/
def derive (salt : Nat) (p : String) : List Nat :=
  p.data.map (fun c => c.toNat + salt)

/-- Modelled from the spec: generate_password_hash stores the salt next to
the derived key, never the plaintext itself (the model keys are an opaque
image of the plaintext under the derivation). -/
def generate_password_hash (salt : Nat) (p : String) : Credential :=
  { salt := salt, key := derive salt p }

/-- Modelled from the spec: check_password_hash re-derives from the
plaintext with the stored salt and compares with the stored key. -/
def check_password_hash (cred : Credential) (p : String) : Bool :=
  derive cred.salt p == cred.key

/-! ## Data model (src/main.py lines 29-67)

The three SQLAlchemy tables become Lean structures; nullable foreign-key
columns (author_id, post_id carry no nullable=False in the source) become
Option Nat. -/

structure User where
  id : Nat
  name : String
  email : String
  password : Credential
deriving Repr, DecidableEq

structure BlogPost where
  id : Nat
  authorId : Option Nat
  title : String
  subtitle : String
  date : String
  body : String
  imgUrl : String
deriving Repr, DecidableEq

structure Comment where
  id : Nat
  authorId : Option Nat
  postId : Option Nat
  text : String
deriving Repr, DecidableEq

/-- The persistent store: the three tables of the sqlite database, each a
list of rows in insertion order. -/
structure Store where
  users : List User
  posts : List BlogPost
  comments : List Comment
deriving Repr, DecidableEq

/-- The empty database, as created by db.create_all. -/
def Store.empty : Store := { users := [], posts := [], comments := [] }

/-- Sqlite integer primary keys: a fresh row receives max existing id plus
one, so the first row of a table receives id 1. -/
def nextId (ids : List Nat) : Nat := ids.foldr max 0 + 1

/-- Lookup of BlogPost.query.get / db.session.get: first row whose id
matches. -/
def getPost (s : Store) (i : Nat) : Option BlogPost :=
  s.posts.find? (fun q => q.id == i)

/-! ## Session identity (flask-login current_user) -/

inductive Principal where
  | anonymous
  | user (u : User)
deriving Repr, DecidableEq

/-- Field current_user.is_authenticated of flask-login: false exactly for
the anonymous sentinel. -/
def Principal.isAuthenticated : Principal → Bool
  | .anonymous => false
  | .user _ => true

/-- The test of the admin_only decorator (src/main.py line 84): the request
passes the gate iff current_user.is_authenticated and current_user.id == 1.
Stated as the pure predicate isAdmin of the spec. -/
def isAdmin (p : Principal) : Bool :=
  match p with
  | .anonymous => false
  | .user u => u.id == 1

/-! ## Forms (imported from forms.py, repository code not under src/)

Modelled from the spec: CreatePostForm carries title, subtitle, body and
image URL (full replace of title/subtitle/body/image per the spec);
RegisterForm carries name, email, password; LoginForm carries email,
password and the forgot_password flag the login handler reads
(src/main.py line 264); CommentForm carries the comment text
(comment_text.data, src/main.py line 134).  A handler argument of
Option form models validate_on_submit: some f is a POST whose form
validated, none is a GET or a failed validation. -/

structure CreatePostForm where
  title : String
  subtitle : String
  body : String
  imgUrl : String
deriving Repr, DecidableEq

structure RegisterForm where
  name : String
  email : String
  password : String
deriving Repr, DecidableEq

structure LoginForm where
  email : String
  password : String
  forgot_password : Bool
deriving Repr, DecidableEq

structure CommentForm where
  comment_text : String
deriving Repr, DecidableEq

/-! ## Responses and handler results -/

/-- Outcome of one request: a rendered template, a redirect, the
abort(403) of the admin gate, or an exception the handler does not catch
(named after the Python exception class). -/
inductive Response where
  | render (template : String)
  | redirect (target : String)
  | forbidden (code : Nat)
  | crash (exn : String)
deriving Repr, DecidableEq

/-- Result of a handler: the response, the flash messages emitted, the
store after the request, and the session principal after the request
(login_user replaces it). -/
structure HandlerResult where
  response : Response
  flashes : List String
  store : Store
  principal : Principal
deriving Repr, DecidableEq

/-- The admin_only decorator (src/main.py lines 81-90): if the current
user is not authenticated or its id differs from 1, abort(403) before the
wrapped handler runs; otherwise run the handler as that user. -/
def adminOnly (p : Principal) (s : Store) (f : User → HandlerResult) : HandlerResult :=
  match p with
  | .anonymous => { response := .forbidden 403, flashes := [], store := s, principal := p }
  | .user u =>
    if u.id == 1 then f u
    else { response := .forbidden 403, flashes := [], store := s, principal := p }

/-! ## Post handlers (src/main.py lines 119-218) -/

/-- Persistence step of new_post (src/main.py lines 164-176): build the
BlogPost row and commit; title carries a unique constraint (line 51), so a
conflicting insert raises IntegrityError and the session is rolled back. -/
def createPost (s : Store) (f : CreatePostForm) (author : User) (today : String) :
    Except String (BlogPost × Store) :=
  if s.posts.any (fun q => q.title == f.title) then .error "IntegrityError"
  else
    let q : BlogPost :=
      { id := nextId (s.posts.map (fun r => r.id)), authorId := some author.id,
        title := f.title, subtitle := f.subtitle, date := today,
        body := f.body, imgUrl := f.imgUrl }
    .ok (q, { s with posts := s.posts ++ [q] })

/-- Handler new_post (src/main.py lines 154-181), admin_only: on a
validated POST, try to commit the new post; on IntegrityError roll back;
either way redirect to the home page.  A GET renders the form. -/
def new_post (p : Principal) (s : Store) (form : Option CreatePostForm) (today : String) :
    HandlerResult :=
  adminOnly p s fun u =>
    match form with
    | some f =>
      match createPost s f u today with
      | .ok (_, s1) => { response := .redirect "/", flashes := [], store := s1, principal := p }
      | .error _ => { response := .redirect "/", flashes := [], store := s, principal := p }
    | none => { response := .render "make-post.html", flashes := [], store := s, principal := p }

/-- Handler edit_post (src/main.py lines 184-200), admin_only: fetch the
post by id; on a validated POST, populate_obj copies the form fields onto
the fetched object and the session commits with no except clause, so a
missing post makes populate_obj raise AttributeError on None, and a title
collision makes the commit raise IntegrityError; on success redirect to
the post page.  A GET renders the form. -/
def edit_post (p : Principal) (s : Store) (postId : Nat) (form : Option CreatePostForm) :
    HandlerResult :=
  adminOnly p s fun _u =>
    let post := getPost s postId
    match form with
    | some f =>
      match post with
      | none =>
        { response := .crash "AttributeError", flashes := [], store := s, principal := p }
      | some q =>
        if s.posts.any (fun r => r.id != q.id && r.title == f.title) then
          { response := .crash "IntegrityError", flashes := [], store := s, principal := p }
        else
          let q1 := { q with title := f.title, subtitle := f.subtitle,
                             body := f.body, imgUrl := f.imgUrl }
          { response := .redirect ("/post/" ++ toString q.id), flashes := [],
            store := { s with posts := s.posts.map (fun r => if r.id == q.id then q1 else r) },
            principal := p }
    | none => { response := .render "make-post.html", flashes := [], store := s, principal := p }

/-- Handler delete_post (src/main.py lines 203-218), admin_only: fetch the
post by id and db.session.delete it.  When the id is absent the fetch
yields None and session.delete(None) raises UnmappedInstanceError, which
the except clause (IntegrityError only) does not catch.  When the post
exists, the relationship declarations (src/main.py lines 56 and 66) carry
no delete cascade, so SQLAlchemy applies its default behaviour on parent
deletion: the post_id foreign key of each associated comment is set to
NULL and the comment rows stay; the post row is removed; then redirect to
the home page. -/
def delete_post (p : Principal) (s : Store) (postId : Nat) : HandlerResult :=
  adminOnly p s fun _u =>
    match getPost s postId with
    | none =>
      { response := .crash "UnmappedInstanceError", flashes := [], store := s, principal := p }
    | some q =>
      { response := .redirect "/", flashes := [],
        store := { s with
          posts := s.posts.filter (fun r => r.id != q.id),
          comments := s.comments.map
            (fun c => if c.postId == some q.id then { c with postId := none } else c) },
        principal := p }

/-- Handler show_post (src/main.py lines 119-151): fetch the post by the
route index (possibly None); on a validated comment POST, an anonymous
user is flashed and redirected to login before any row is built; an
authenticated user gets a Comment row committed whose parent_post is the
fetched post — post_id is NULL when the post is absent, and the nullable
column lets the commit succeed — after which the success path reads
requested_post.id, raising AttributeError on None (after the commit). -/
def show_post (p : Principal) (s : Store) (index : Nat) (form : Option CommentForm) :
    HandlerResult :=
  let requested := getPost s index
  match form with
  | some f =>
    match p with
    | .anonymous =>
      { response := .redirect "/login",
        flashes := ["You need to login or register to comment."],
        store := s, principal := p }
    | .user u =>
      let c : Comment :=
        { id := nextId (s.comments.map (fun d => d.id)), authorId := some u.id,
          postId := requested.map (fun q => q.id), text := f.comment_text }
      let s1 := { s with comments := s.comments ++ [c] }
      match requested with
      | some q =>
        { response := .redirect ("/post/" ++ toString q.id),
          flashes := ["Successfully added the comment."],
          store := s1, principal := p }
      | none =>
        { response := .crash "AttributeError", flashes := [], store := s1, principal := p }
  | none =>
    { response := .render "post.html", flashes := [], store := s, principal := p }

/-! ## User handlers (src/main.py lines 224-279) -/

/-- Handler register (src/main.py lines 224-250): on a validated POST,
build the user with a hashed password and commit; the unique constraint on
email (line 33) turns a duplicate into IntegrityError, which rolls the
session back, flashes a notice and redirects to login; on success the new
user is logged in and the handler redirects to the home page. -/
def register (p : Principal) (s : Store) (form : Option RegisterForm) (salt : Nat) :
    HandlerResult :=
  match form with
  | some f =>
    if s.users.any (fun u => u.email == f.email) then
      { response := .redirect "/login",
        flashes := ["Email already exists. Log in instead or click on 'Forgot Password'."],
        store := s, principal := p }
    else
      let u : User :=
        { id := nextId (s.users.map (fun v => v.id)), name := f.name, email := f.email,
          password := generate_password_hash salt f.password }
      { response := .redirect "/", flashes := [],
        store := { s with users := s.users ++ [u] }, principal := .user u }
  | none => { response := .render "register.html", flashes := [], store := s, principal := p }

/-- Result of the login handler: the store is never written, and
checkedPassword records whether check_password_hash ran on this request
(src/main.py line 272). -/
structure LoginResult where
  response : Response
  flashes : List String
  principal : Principal
  checkedPassword : Bool
deriving Repr, DecidableEq

/-- Handler login (src/main.py lines 253-279): on a validated POST, look
the user up by email, then test the branches in source order: the
forgot_password flag first (notice, redirect to login, password never
checked), then unknown email, then wrong password, then success, which
logs the user in and redirects to the home page. -/
def login (p : Principal) (s : Store) (form : Option LoginForm) : LoginResult :=
  match form with
  | some f =>
    let user := s.users.find? (fun u => u.email == f.email)
    if f.forgot_password then
      { response := .redirect "/login",
        flashes := ["Forgot password functionality coming soon!"],
        principal := p, checkedPassword := false }
    else
      match user with
      | none =>
        { response := .redirect "/login", flashes := ["Email does not exist, try again."],
          principal := p, checkedPassword := false }
      | some u =>
        if check_password_hash u.password f.password then
          { response := .redirect "/", flashes := [],
            principal := .user u, checkedPassword := true }
        else
          { response := .redirect "/login",
            flashes := ["Incorrect password, please try again."],
            principal := p, checkedPassword := true }
  | none => { response := .render "login.html", flashes := [], principal := p, checkedPassword := false }

/-! ## Concrete fixtures used by witnesses and counterexamples -/

def adminUser : User :=
  { id := 1, name := "A", email := "a@y.com", password := generate_password_hash 1 "pa" }

def otherUser : User :=
  { id := 2, name := "B", email := "b@y.com", password := generate_password_hash 2 "pb" }

def post1 : BlogPost :=
  { id := 1, authorId := some 1, title := "T", subtitle := "S",
    date := "April 03, 2024", body := "B", imgUrl := "U" }

def comment1 : Comment := { id := 1, authorId := some 2, postId := some 1, text := "hi" }

/-- Store holding only the first registered user. -/
def store1 : Store := { users := [adminUser], posts := [], comments := [] }

/-- Store holding both users, one post and one comment on that post. -/
def store2 : Store := { users := [adminUser, otherUser], posts := [post1], comments := [comment1] }

/-- Store holding both users and no posts. -/
def store3 : Store := { users := [adminUser, otherUser], posts := [], comments := [] }

/-! ## Helper lemmas -/

theorem derive_inj (salt : Nat) {p q : String} (h : derive salt p = derive salt q) : p = q := by
  unfold derive at h
  have hinj : Function.Injective (fun c : Char => c.toNat + salt) := by
    intro a b hab
    have hn : a.toNat = b.toNat := Nat.add_right_cancel hab
    have h1 : Char.ofNat a.toNat = Char.ofNat b.toNat := by rw [hn]
    rwa [Char.ofNat_toNat, Char.ofNat_toNat] at h1
  exact String.ext (List.map_injective_iff.mpr hinj h)

theorem le_foldr_max (l : List Nat) (a : Nat) (h : a ∈ l) : a ≤ l.foldr max 0 := by
  induction l with
  | nil => cases h
  | cons b t ih =>
    rcases List.mem_cons.mp h with rfl | h2
    · exact le_max_left _ _
    · exact le_trans (ih h2) (le_max_right _ _)

/-! ## Claim theorems -/

/-- C8: a POST to /post/{id} by an anonymous principal with a validated
comment form yields a flash notice and a redirect to /login, and the store
— in particular the comments table — is unchanged. -/
theorem anonymous_comment_redirected_no_row (s : Store) (i : Nat) (f : CommentForm) :
    show_post Principal.anonymous s i (some f)
      = { response := Response.redirect "/login",
          flashes := ["You need to login or register to comment."],
          store := s, principal := Principal.anonymous } := rfl

/-- C9: for every salt, verify(p, hash(p)) is true for every non-empty
plaintext p, and verify(p, hash(q)) is false whenever p and q differ (the
credential service modelled from the spec, see generate_password_hash). -/
theorem verify_hash_roundtrip (salt : Nat) (p q : String) :
    (p ≠ "" → check_password_hash (generate_password_hash salt p) p = true)
    ∧ (p ≠ q → check_password_hash (generate_password_hash salt q) p = false) := by
  constructor
  · intro _
    simp [check_password_hash, generate_password_hash]
  · intro hpq
    simp only [check_password_hash, generate_password_hash, beq_eq_false_iff_ne, ne_eq]
    intro hderive
    exact hpq (derive_inj salt hderive)

theorem verify_hash_roundtrip_witness :
    check_password_hash (generate_password_hash 0 "a") "a" = true
    ∧ check_password_hash (generate_password_hash 0 "b") "a" = false :=
  ⟨(verify_hash_roundtrip 0 "a" "b").1 (by decide),
   (verify_hash_roundtrip 0 "a" "b").2 (by decide)⟩

/-- C10: a validated login POST with the forgot_password flag set — for
any email and password, correct ones included — flashes a notice and
redirects back to /login, establishes no session (the principal stays
Anonymous) and never runs check_password_hash. -/
theorem forgot_password_precedes_verification (s : Store) (e pw : String) :
    login Principal.anonymous s (some { email := e, password := pw, forgot_password := true })
      = { response := Response.redirect "/login",
          flashes := ["Forgot password functionality coming soon!"],
          principal := Principal.anonymous, checkedPassword := false } := rfl

/-- C1: isAdmin holds iff the principal is an authenticated user whose id
equals 1; registering into the empty store logs in a principal satisfying
isAdmin (the first user receives id 1), while a successful registration
into any store already holding users (with the ids the database hands out,
all at least 1) logs in a principal that is not admin. -/
theorem isAdmin_first_user_rule :
    (∀ p : Principal, isAdmin p = true ↔ ∃ u : User, p = Principal.user u ∧ u.id = 1)
    ∧ (∀ (f : RegisterForm) (salt : Nat),
        isAdmin (register Principal.anonymous Store.empty (some f) salt).principal = true)
    ∧ (∀ (p : Principal) (s : Store) (f : RegisterForm) (salt : Nat),
        s.users ≠ [] → (∀ u ∈ s.users, 1 ≤ u.id) →
        (∀ u ∈ s.users, u.email ≠ f.email) →
        isAdmin (register p s (some f) salt).principal = false) := by
  refine ⟨fun p => ?_, fun f salt => rfl, ?_⟩
  · cases p with
    | anonymous => simp [isAdmin]
    | user u => simp [isAdmin]
  · intro p s f salt hne hids hfresh
    have hb : s.users.any (fun u => u.email == f.email) = false := by
      rw [List.any_eq_false]
      intro u hu
      simp only [beq_iff_eq]
      exact hfresh u hu
    obtain ⟨u0, t, hcons⟩ := List.exists_cons_of_ne_nil hne
    have hu0 : u0 ∈ s.users := by rw [hcons]; exact List.mem_cons_self u0 t
    have hmem : u0.id ∈ s.users.map (fun v => v.id) := List.mem_map_of_mem _ hu0
    have h1 : 1 ≤ (s.users.map (fun v => v.id)).foldr max 0 :=
      le_trans (hids u0 hu0) (le_foldr_max _ _ hmem)
    have h2 : nextId (s.users.map (fun v => v.id)) ≠ 1 := by
      unfold nextId; omega
    simp [register, hb, isAdmin]
    exact h2

theorem isAdmin_first_user_rule_witness :
    isAdmin (Principal.user adminUser) = true
    ∧ isAdmin (register Principal.anonymous Store.empty
        (some { name := "A", email := "a@y.com", password := "pa" }) 1).principal = true
    ∧ isAdmin (register Principal.anonymous store1
        (some { name := "B", email := "b@y.com", password := "pb" }) 2).principal = false := by
  refine ⟨?_, ?_, ?_⟩
  · exact (isAdmin_first_user_rule.1 (Principal.user adminUser)).mpr ⟨adminUser, rfl, rfl⟩
  · exact isAdmin_first_user_rule.2.1 { name := "A", email := "a@y.com", password := "pa" } 1
  · exact isAdmin_first_user_rule.2.2 Principal.anonymous store1
      { name := "B", email := "b@y.com", password := "pb" } 2
      (by decide) (by decide) (by decide)

/-- C2: any principal that is not the admin — anonymous, or an
authenticated user with id other than 1 — receives the abort(403) outcome
from new_post (GET or POST), edit_post (GET or POST) and delete_post, and
the store is returned unchanged: no post row created, mutated or
deleted. -/
theorem nonadmin_mutation_routes_forbidden (p : Principal) (s : Store)
    (h : p = Principal.anonymous ∨ ∃ u : User, p = Principal.user u ∧ u.id ≠ 1) :
    (∀ (form : Option CreatePostForm) (today : String),
        (new_post p s form today).response = Response.forbidden 403
        ∧ (new_post p s form today).store = s)
    ∧ (∀ (i : Nat) (form : Option CreatePostForm),
        (edit_post p s i form).response = Response.forbidden 403
        ∧ (edit_post p s i form).store = s)
    ∧ (∀ i : Nat,
        (delete_post p s i).response = Response.forbidden 403
        ∧ (delete_post p s i).store = s) := by
  have hgate : ∀ f : User → HandlerResult,
      adminOnly p s f
        = { response := Response.forbidden 403, flashes := [], store := s, principal := p } := by
    intro f
    rcases h with rfl | ⟨u, rfl, hu⟩
    · rfl
    · simp [adminOnly, hu]
  refine ⟨fun form today => ?_, fun i form => ?_, fun i => ?_⟩ <;>
    simp [new_post, edit_post, delete_post, hgate]

theorem nonadmin_mutation_routes_forbidden_witness :
    ((new_post (Principal.user otherUser) store2 none "d").response = Response.forbidden 403
      ∧ (new_post (Principal.user otherUser) store2 none "d").store = store2)
    ∧ ((edit_post Principal.anonymous store2 1 none).response = Response.forbidden 403
      ∧ (edit_post Principal.anonymous store2 1 none).store = store2)
    ∧ ((delete_post (Principal.user otherUser) store2 1).response = Response.forbidden 403
      ∧ (delete_post (Principal.user otherUser) store2 1).store = store2) :=
  ⟨(nonadmin_mutation_routes_forbidden (Principal.user otherUser) store2
      (Or.inr ⟨otherUser, rfl, by decide⟩)).1 none "d",
   (nonadmin_mutation_routes_forbidden Principal.anonymous store2 (Or.inl rfl)).2.1 1 none,
   (nonadmin_mutation_routes_forbidden (Principal.user otherUser) store2
      (Or.inr ⟨otherUser, rfl, by decide⟩)).2.2 1⟩

/-- C3 counterexample: deleting post 1 from a store holding one comment on
that post does not remove the comment row — the claim that the comments
table afterwards equals the table with every comment referencing the post
filtered out fails at this input (the row survives with post_id null). -/
theorem delete_post_comment_rows_survive :
    (delete_post (Principal.user adminUser) store2 1).store.comments
      ≠ store2.comments.filter (fun c => c.postId != some 1) := by decide

/-- C3 amended: deleting an existing post dissociates, in the same atomic
step, every comment referencing it — each such post_id is set to null, so
zero comments reference the deleted id afterwards — but the comment rows
themselves survive (the comments table keeps its length), and the handler
redirects to the home page. -/
theorem delete_post_dissociates_comments (u : User) (s : Store) (i : Nat) (q : BlogPost)
    (hu : u.id = 1) (hq : getPost s i = some q) :
    ((delete_post (Principal.user u) s i).store.comments.countP
        (fun c => c.postId == some q.id)) = 0
    ∧ (delete_post (Principal.user u) s i).store.comments.length = s.comments.length
    ∧ (delete_post (Principal.user u) s i).response = Response.redirect "/" := by
  have hstep : delete_post (Principal.user u) s i
      = { response := Response.redirect "/", flashes := [],
          store := { s with
            posts := s.posts.filter (fun r => r.id != q.id),
            comments := s.comments.map
              (fun c => if c.postId == some q.id then { c with postId := none } else c) },
          principal := Principal.user u } := by
    simp [delete_post, adminOnly, hu, hq]
  rw [hstep]
  refine ⟨?_, by simp, rfl⟩
  rw [List.countP_eq_zero]
  intro a ha
  rcases List.mem_map.mp ha with ⟨c, hc, rfl⟩
  by_cases hcp : c.postId = some q.id
  · simp [hcp]
  · simp [hcp]

theorem delete_post_dissociates_comments_witness :
    ((delete_post (Principal.user adminUser) store2 1).store.comments.countP
        (fun c => c.postId == some post1.id)) = 0
    ∧ (delete_post (Principal.user adminUser) store2 1).store.comments.length
        = store2.comments.length
    ∧ (delete_post (Principal.user adminUser) store2 1).response = Response.redirect "/" :=
  delete_post_dissociates_comments adminUser store2 1 post1 rfl (by decide)

/-- C4: evaluation at the failing input — the authenticated user of id 2
POSTs a validated comment to /post/5 while no post of id 5 exists; the
handler commits a comment row whose post_id is null, referencing no post,
and then crashes with AttributeError reading requested_post.id. -/
theorem comment_on_absent_post_creates_orphan :
    (show_post (Principal.user otherUser) store3 5
        (some { comment_text := "hello" })).store.comments
      = [{ id := 1, authorId := some 2, postId := none, text := "hello" }]
    ∧ (show_post (Principal.user otherUser) store3 5
        (some { comment_text := "hello" })).response
      = Response.crash "AttributeError" := by decide

/-- C5: evaluation at the failing inputs — with no post of id 7 in the
store, the admin GET /delete/7 reaches session.delete(None) and raises
UnmappedInstanceError past the except clause that only catches
IntegrityError, and a validated admin POST to /edit-post/7 reaches
populate_obj on None and raises AttributeError: unhandled exceptions, not
NotFoundError responses. -/
theorem absent_post_edit_delete_crash :
    (delete_post (Principal.user adminUser) store3 7).response
      = Response.crash "UnmappedInstanceError"
    ∧ (edit_post (Principal.user adminUser) store3 7
        (some { title := "t", subtitle := "s", body := "b", imgUrl := "u" })).response
      = Response.crash "AttributeError" := by decide

/-- C6: the registration contract — a registration whose email already
belongs to a stored user leaves the store unchanged (the create is rolled
back as a unit, so the users table keeps its row count), flashes the
duplicate-email notice and redirects to /login without touching the
session; a registration with a fresh email appends exactly one user row
carrying that email, logs the new user in and redirects to the home
page. -/
theorem register_contract (p : Principal) (s : Store) (f : RegisterForm) (salt : Nat) :
    ((∃ u ∈ s.users, u.email = f.email) →
        (register p s (some f) salt).store = s
        ∧ (register p s (some f) salt).response = Response.redirect "/login"
        ∧ (register p s (some f) salt).flashes
            = ["Email already exists. Log in instead or click on 'Forgot Password'."]
        ∧ (register p s (some f) salt).principal = p)
    ∧ ((¬ ∃ u ∈ s.users, u.email = f.email) →
        ∃ w : User,
          (register p s (some f) salt).store.users = s.users ++ [w]
          ∧ w.email = f.email
          ∧ (register p s (some f) salt).principal = Principal.user w
          ∧ (register p s (some f) salt).response = Response.redirect "/") := by
  constructor
  · intro h
    have hb : s.users.any (fun u => u.email == f.email) = true := by
      rcases h with ⟨u, hu, he⟩
      exact List.any_eq_true.mpr ⟨u, hu, by simpa using he⟩
    simp [register, hb]
  · intro h
    have hb : s.users.any (fun u => u.email == f.email) = false := by
      rw [List.any_eq_false]
      intro u hu
      simp only [beq_iff_eq]
      exact fun he => h ⟨u, hu, he⟩
    refine ⟨{ id := nextId (s.users.map (fun v => v.id)), name := f.name, email := f.email,
              password := generate_password_hash salt f.password }, ?_, rfl, ?_, ?_⟩ <;>
      simp [register, hb]

theorem register_contract_witness :
    ((register Principal.anonymous store1
        (some { name := "X", email := "a@y.com", password := "p" }) 3).store = store1
      ∧ (register Principal.anonymous store1
          (some { name := "X", email := "a@y.com", password := "p" }) 3).response
          = Response.redirect "/login"
      ∧ (register Principal.anonymous store1
          (some { name := "X", email := "a@y.com", password := "p" }) 3).flashes
          = ["Email already exists. Log in instead or click on 'Forgot Password'."]
      ∧ (register Principal.anonymous store1
          (some { name := "X", email := "a@y.com", password := "p" }) 3).principal
          = Principal.anonymous)
    ∧ (∃ w : User,
        (register Principal.anonymous store1
            (some { name := "B", email := "b@y.com", password := "pb" }) 2).store.users
          = store1.users ++ [w]
        ∧ w.email = "b@y.com"
        ∧ (register Principal.anonymous store1
            (some { name := "B", email := "b@y.com", password := "pb" }) 2).principal
          = Principal.user w
        ∧ (register Principal.anonymous store1
            (some { name := "B", email := "b@y.com", password := "pb" }) 2).response
          = Response.redirect "/") :=
  ⟨(register_contract Principal.anonymous store1
      { name := "X", email := "a@y.com", password := "p" } 3).1 ⟨adminUser, by decide, rfl⟩,
   (register_contract Principal.anonymous store1
      { name := "B", email := "b@y.com", password := "pb" } 2).2 (by decide)⟩

/-- Global uniqueness of post titles over a store. -/
def titlesUnique (s : Store) : Prop :=
  s.posts.Pairwise (fun q r => q.title ≠ r.title)

theorem createPost_preserves_titlesUnique (s : Store) (f : CreatePostForm) (u : User)
    (t : String) (res : BlogPost) (s1 : Store)
    (h : createPost s f u t = Except.ok (res, s1)) (hug : titlesUnique s) :
    titlesUnique s1 := by
  by_cases hb : s.posts.any (fun q => q.title == f.title) = true
  · simp [createPost, hb] at h
  · have hb2 : s.posts.any (fun q => q.title == f.title) = false := Bool.eq_false_iff.mpr hb
    have hall : ∀ q ∈ s.posts, q.title ≠ f.title := by
      intro q hq
      simpa using List.any_eq_false.mp hb2 q hq
    simp [createPost, hb2] at h
    obtain ⟨-, h2⟩ := h
    rw [← h2]
    simp only [titlesUnique] at hug ⊢
    rw [List.pairwise_append]
    refine ⟨hug, List.pairwise_singleton _ _, ?_⟩
    intro a ha b hb1
    rcases List.mem_singleton.mp hb1 with rfl
    exact fun hc => hall a ha hc

/-- C7: the title-uniqueness contract — inserting a post whose title
already occurs fails with the distinguishable IntegrityError and the
handler leaves the store unchanged for every principal (the transaction is
rolled back, not partially committed), and the new_post route preserves
global title uniqueness for every principal and form. -/
theorem title_uniqueness_contract (s : Store) (f : CreatePostForm) (u : User) (t : String) :
    ((∃ q ∈ s.posts, q.title = f.title) →
        createPost s f u t = Except.error "IntegrityError"
        ∧ ∀ p : Principal, (new_post p s (some f) t).store = s)
    ∧ (titlesUnique s → ∀ p : Principal, titlesUnique (new_post p s (some f) t).store) := by
  constructor
  · intro h
    have hb : s.posts.any (fun q => q.title == f.title) = true := by
      rcases h with ⟨q, hq, he⟩
      exact List.any_eq_true.mpr ⟨q, hq, by simpa using he⟩
    refine ⟨by simp [createPost, hb], ?_⟩
    intro p
    cases p with
    | anonymous => rfl
    | user v =>
      by_cases hv : v.id = 1
      · simp [new_post, adminOnly, hv, createPost, hb]
      · simp [new_post, adminOnly, hv]
  · intro hug p
    cases p with
    | anonymous => exact hug
    | user v =>
      by_cases hv : v.id = 1
      · cases hc : createPost s f v t with
        | error e =>
          have hs : (new_post (Principal.user v) s (some f) t).store = s := by
            simp [new_post, adminOnly, hv, hc]
          rwa [hs]
        | ok rs =>
          obtain ⟨res, s1⟩ := rs
          have hs : (new_post (Principal.user v) s (some f) t).store = s1 := by
            simp [new_post, adminOnly, hv, hc]
          rw [hs]
          exact createPost_preserves_titlesUnique s f v t res s1 hc hug
      · have hs : (new_post (Principal.user v) s (some f) t).store = s := by
          simp [new_post, adminOnly, hv]
        rwa [hs]

theorem title_uniqueness_contract_witness :
    (createPost store2 { title := "T", subtitle := "s2", body := "b2", imgUrl := "u2" }
        adminUser "d" = Except.error "IntegrityError"
      ∧ (new_post (Principal.user adminUser) store2
          (some { title := "T", subtitle := "s2", body := "b2", imgUrl := "u2" }) "d").store
          = store2)
    ∧ titlesUnique (new_post (Principal.user adminUser) store2
        (some { title := "T2", subtitle := "s2", body := "b2", imgUrl := "u2" }) "d").store := by
  have h1 := (title_uniqueness_contract store2
      { title := "T", subtitle := "s2", body := "b2", imgUrl := "u2" } adminUser "d").1
      ⟨post1, by decide, rfl⟩
  have h2 := (title_uniqueness_contract store2
      { title := "T2", subtitle := "s2", body := "b2", imgUrl := "u2" } adminUser "d").2
      (List.pairwise_singleton _ _) (Principal.user adminUser)
  exact ⟨⟨h1.1, h1.2 (Principal.user adminUser)⟩, h2⟩

end Blog
